import Mathlib

/-!
Shallow embedding of the request-serialization and notification-dispatch
core of the `utopia-deno` Node.js API client (`src/index.js`), together
with theorems settling the specification claims about it.

Modelling conventions:
* JS strings are Lean `String`; the only falsy string is `""`, so the JS
  idiom `x || d` on strings becomes `jsOrStr`.  Possibly-`undefined`
  arguments are `Option String` (`none` = `undefined`).
* `JSON.parse` is a JS builtin, not repository code, so inbound socket
  frames are modelled at the post-parse boundary: a `WireFrame` either is
  a well-formed JSON object with a `type` string plus payload fields, or
  is raw text on which `JSON.parse` throws a `SyntaxError`.
* Node's `EventEmitter` (also a builtin used by the code) is modelled as
  an ordered list of handlers; `emit` invokes the handlers registered for
  the event name in registration order, removing one-shot handlers, and
  passes along exactly the argument list that the caller of `emit`
  supplied (the source code supplies none).
-/

/-- JSON scalar values appearing in request parameter maps and
notification payload fields. -/
inductive Json
  | str (s : String)
  | num (n : Int)
  | bool (b : Bool)
deriving DecidableEq

/-- Errors thrown by the modelled JS code: `new Error(msg)`, the
`ReferenceError` raised on resolving an undeclared identifier, and the
`SyntaxError` raised by `JSON.parse` on malformed input. -/
inductive JsError
  | errorMsg (msg : String)
  | referenceError (name : String)
  | syntaxError
deriving DecidableEq

/-- JS `v || d` for a possibly-undefined string `v`: `undefined` and the
empty string (the only falsy string) are replaced by the default. -/
def jsOrStr (v : Option String) (d : String) : String :=
  match v with
  | none => d
  | some s => if s == "" then d else s

/-- The request envelope `{token, method, params}` built by `sendRequest`
(src/index.js lines 123-131) and posted to `http://host:port/api/1.0`. -/
structure RequestBody where
  token : String
  method : String
  params : List (String × Json)
deriving DecidableEq

/-- Envelope construction of `sendRequest` (lines 124-130):
`__.method = method || "getSystemInfo"; __.params = params || {}`. -/
def sendRequest (token : String) (method : Option String)
    (params : Option (List (String × Json))) : RequestBody :=
  { token := token
    method := jsOrStr method "getSystemInfo"
    params := params.getD [] }

/-- Resolution behaviour of the promise returned by `sendRequest`
(lines 137-143): resolve with the body when there is no transport error
and the status code is 200, otherwise reject with
`error_ || "statusCode is not 200"`.  The transport error is an `Option`:
`none` models a null/undefined `error_`. -/
def sendRequestOutcome (error_ : Option String) (statusCode : Nat)
    (body : Json) : Except String Json :=
  if error_.isNone && statusCode == 200 then
    Except.ok body
  else
    Except.error (error_.getD "statusCode is not 200")

/-- Wrapped operation `setContactNick(pk, newNick)` (lines 427-431):
defaults both arguments to `""` and sends method `"setContactNick"` with
params `contactPublicKey` and `newNick`. -/
def setContactNick (token : String) (pk newNick : Option String) :
    RequestBody :=
  let pk := jsOrStr pk ""
  let newNick := jsOrStr newNick ""
  sendRequest token (some "setContactNick")
    (some [("contactPublicKey", Json.str pk), ("newNick", Json.str newNick)])

/-- Wrapped operation `unsModifyRecordRequest(nick, valid, isPrimary,
channelId)` (lines 1455-1464): defaults every argument to `""` and sends
method `"unsCreateRecordRequest"` (sic -- the body is a copy of
`unsCreateRecordRequest`, not the documented `unsModifyRecordRequest`). -/
def unsModifyRecordRequest (token : String)
    (nick valid isPrimary channelId : Option String) : RequestBody :=
  let channelId := jsOrStr channelId ""
  let nick := jsOrStr nick ""
  let valid := jsOrStr valid ""
  let isPrimary := jsOrStr isPrimary ""
  sendRequest token (some "unsCreateRecordRequest")
    (some [("nick", Json.str nick), ("valid", Json.str valid),
           ("isPrimary", Json.str isPrimary), ("channelId", Json.str channelId)])

/-- Variable environment of a JS method body: identifier name to value,
where the value `none` is JS `undefined`.  Identifiers absent from the
environment are undeclared. -/
def JsEnv := List (String × Option String)

/-- Resolve an identifier; `none` means the identifier is undeclared. -/
def lookupVar (env : JsEnv) (name : String) : Option (Option String) :=
  (env.find? (fun p => p.1 == name)).map (fun p => p.2)

/-- Assign a value to an already-declared identifier. -/
def setVar (env : JsEnv) (name : String) (v : String) : JsEnv :=
  env.map (fun p => if p.1 == name then (p.1, some v) else p)

/-- A statement of the shape `name = name || default` as written at the
top of every wrapped operation. -/
structure DefaultAssign where
  name : String
  default : String

/-- Execute `name = name || default`.  Resolving an identifier that is
not declared anywhere in scope throws a `ReferenceError` (the reference
`name` on the right-hand side is unresolvable; class bodies are strict
mode code, so the assignment could not silently create a global either). -/
def execDefaultAssign (env : JsEnv) (s : DefaultAssign) :
    Except JsError JsEnv :=
  match lookupVar env s.name with
  | none => Except.error (JsError.referenceError s.name)
  | some v => Except.ok (setVar env s.name (jsOrStr v s.default))

/-- Execute a sequence of `name = name || default` statements in order,
stopping at the first thrown error. -/
def execDefaultAssigns (env : JsEnv) :
    List DefaultAssign → Except JsError JsEnv
  | [] => Except.ok env
  | s :: rest =>
    match execDefaultAssign env s with
    | Except.error e => Except.error e
    | Except.ok env' => execDefaultAssigns env' rest

/-- Parameter environment of `modifyChannel(channelId, description,
readOnly, language, hashtags, geoTag, base64AvatarImage, hideInUI)`
(line 1363): note there is no `password` parameter. -/
def modifyChannelEnv (channelId description readOnly language hashtags
    geoTag base64AvatarImage hideInUI : Option String) : JsEnv :=
  [("channelId", channelId), ("description", description),
   ("readOnly", readOnly), ("language", language), ("hashtags", hashtags),
   ("geoTag", geoTag), ("base64AvatarImage", base64AvatarImage),
   ("hideInUI", hideInUI)]

/-- The defaulting statements of `modifyChannel` in source order
(lines 1364-1372), including `password = password || ""` although
`password` is not a parameter of the method. -/
def modifyChannelStmts : List DefaultAssign :=
  [⟨"channelId", ""⟩, ⟨"description", ""⟩, ⟨"readOnly", ""⟩,
   ⟨"password", ""⟩, ⟨"language", ""⟩, ⟨"hashtags", ""⟩,
   ⟨"hideInUI", ""⟩, ⟨"geoTag", ""⟩, ⟨"base64AvatarImage", ""⟩]

/-- Value of a declared identifier after the defaulting prologue ran
(every such identifier then holds a string). -/
def envValue (env : JsEnv) (name : String) : String :=
  ((lookupVar env name).getD none).getD ""

/-- Wrapped operation `modifyChannel` (lines 1363-1379): runs the
defaulting prologue, then sends method `"createChannel"` (sic) with the
wire parameter map of lines 1373-1378.  The prologue's reference to the
undeclared `password` throws, so the request is never built. -/
def modifyChannel (token : String) (channelId description readOnly
    language hashtags geoTag base64AvatarImage hideInUI : Option String) :
    Except JsError RequestBody :=
  match execDefaultAssigns
      (modifyChannelEnv channelId description readOnly language hashtags
        geoTag base64AvatarImage hideInUI) modifyChannelStmts with
  | Except.error e => Except.error e
  | Except.ok env =>
    Except.ok (sendRequest token (some "createChannel")
      (some [("channelid", Json.str (envValue env "channelId")),
             ("description", Json.str (envValue env "description")),
             ("read_only", Json.str (envValue env "readOnly")),
             ("language", Json.str (envValue env "language")),
             ("hashtags", Json.str (envValue env "hashtags")),
             ("geoTag", Json.str (envValue env "geoTag")),
             ("base64_avatar_image", Json.str (envValue env "base64AvatarImage")),
             ("hide_in_UI", Json.str (envValue env "hideInUI"))]))

/-- Whether the first character list is an initial segment of the
second. -/
def startsWithChars : List Char → List Char → Bool
  | [], _ => true
  | _ :: _, [] => false
  | a :: as, b :: bs => a == b && startsWithChars as bs

/-- Whether the pattern occurs as a contiguous run inside the text. -/
def hasSubChars (pat : List Char) : List Char → Bool
  | [] => pat.isEmpty
  | c :: cs => startsWithChars pat (c :: cs) || hasSubChars pat cs

/-- Characters of a string lowercased, modelling `s.toLowerCase()` on
the ASCII event-type strings involved. -/
def lowerChars (s : String) : List Char :=
  s.toList.map Char.toLower

/-- Case-insensitive substring test modelling `s.match(/pat/i)` for a
literal lowercase pattern `pat` (truthiness of the match result). -/
def matchCI (s pat : String) : Bool :=
  hasSubChars pat.toList (lowerChars s)

/-- An inbound socket frame, modelled at the `JSON.parse` boundary:
`json typ payload` is a frame whose text parses to an object with field
`type` equal to `typ` plus the remaining `payload` fields; `garbage raw`
is a frame whose text `raw` fails to parse (JSON.parse throws). -/
inductive WireFrame
  | json (typ : String) (payload : List (String × Json))
  | garbage (raw : String)

/-- A subscriber registered on the emitter: event name, an opaque
callback identifier, and whether it was registered with `once`. -/
structure Handler where
  event : String
  cb : Nat
  once : Bool
deriving DecidableEq

/-- The Node `EventEmitter` held in `this.listener`, as its ordered
handler list. -/
structure Emitter where
  handlers : List Handler
deriving DecidableEq

/-- EventEmitter `on`: append a durable handler. -/
def Emitter.on (em : Emitter) (event : String) (cb : Nat) : Emitter :=
  ⟨em.handlers ++ [⟨event, cb, false⟩]⟩

/-- EventEmitter `once`: append a one-shot handler. -/
def Emitter.once (em : Emitter) (event : String) (cb : Nat) : Emitter :=
  ⟨em.handlers ++ [⟨event, cb, true⟩]⟩

/-- EventEmitter `removeListener`: remove at most one handler matching
the event name and callback, the most recently registered one. -/
def Emitter.removeListener (em : Emitter) (event : String) (cb : Nat) :
    Emitter :=
  match (em.handlers.reverse.eraseP
      (fun h => h.event == event && h.cb == cb)) with
  | l => ⟨l.reverse⟩

/-- EventEmitter `emit` of one event: the handlers registered for the
event fire in registration order, each receiving the argument list
`args`; one-shot handlers for the event are removed.  Returns the fired
invocations (callback id, arguments received) and the updated emitter. -/
def Emitter.emitOne (em : Emitter) (event : String) (args : List Json) :
    List (Nat × List Json) × Emitter :=
  ((em.handlers.filter (fun h => h.event == event)).map
      (fun h => (h.cb, args)),
   ⟨em.handlers.filter (fun h => !(h.event == event && h.once))⟩)

/-- Emit a list of events in order, each with an empty argument list,
exactly as the socket message handler does (every `this.listener.emit(e)`
call passes no arguments after the event name). -/
def runEmits (em : Emitter) : List String → List (Nat × List Json) × Emitter
  | [] => ([], em)
  | ev :: rest =>
    let fired := em.emitOne ev []
    let later := runEmits fired.2 rest
    (fired.1 ++ later.1, later.2)

/-- Event names emitted for a parsed frame of type `typ`, in the order
of src/index.js lines 52-62: the exact type first, then `"any"`, then
`"outgoingMessage"` / `"incomingMessage"` / `"message"` when `typ`
case-insensitively contains `"outgoing"` / `"incoming"` / `"message"`. -/
def dispatchEvents (typ : String) : List String :=
  [typ, "any"]
    ++ (if matchCI typ "outgoing" then ["outgoingMessage"] else [])
    ++ (if matchCI typ "incoming" then ["incomingMessage"] else [])
    ++ (if matchCI typ "message" then ["message"] else [])

/-- The dispatch sequence as the specification words it (spec.md section
4.3): catch-all `"any"` first, the exact type second, then the three
synthetic categories under the same case-insensitive containment
conditions. -/
def dispatchEventsSpecOrder (typ : String) : List String :=
  ["any", typ]
    ++ (if matchCI typ "outgoing" then ["outgoingMessage"] else [])
    ++ (if matchCI typ "incoming" then ["incomingMessage"] else [])
    ++ (if matchCI typ "message" then ["message"] else [])

/-- The socket `message` handler (lines 50-63) on one inbound frame:
`JSON.parse` throws a SyntaxError on a garbage frame (there is no
try/catch around it, so the exception escapes the handler); on a parsed
frame the emits of `dispatchEvents` run against the emitter.  The
payload fields beyond `type` are never consulted. -/
def handleMessage (em : Emitter) (frame : WireFrame) :
    Except JsError (List (Nat × List Json) × Emitter) :=
  match frame with
  | WireFrame.garbage _ => Except.error JsError.syntaxError
  | WireFrame.json typ _payload => Except.ok (runEmits em (dispatchEvents typ))

/-- Invocation list of a handler run, empty when the handler threw. -/
def invocationsOf (r : Except JsError (List (Nat × List Json) × Emitter)) :
    List (Nat × List Json) :=
  match r with
  | Except.ok (l, _) => l
  | Except.error _ => []

/-- Process a sequence of inbound frames in arrival order, accumulating
the subscriber invocations.  A frame on which the handler throws ends
processing with that uncaught error (nothing catches it in the source). -/
def processFrames (em : Emitter) :
    List WireFrame → List (Nat × List Json) × Emitter × Option JsError
  | [] => ([], em, none)
  | f :: rest =>
    match handleMessage em f with
    | Except.error e => ([], em, some e)
    | Except.ok (l, em') =>
      let later := processFrames em' rest
      (l ++ later.1, later.2)

/-- The keys of the `listenedEvents` object initialised in the
constructor (lines 20-30); subscription methods admit exactly these
event names. -/
def listenedEvents : List String :=
  ["newOutgoingChannelMessage", "newChannelMessage",
   "newOutgoingInstantMessage", "newInstantMessage", "message",
   "channelJoinChanged", "newPaymentTransfer", "newEmail", "any"]

/-- Client instance state relevant to the claims: the fields set by the
constructor plus the listener emitter. -/
structure Client where
  token : String
  websocketenabled : Bool
  apiHost : String
  apiPort : String
  wsPort : Option String
  webSocketUnavailable : Bool
  emitter : Emitter

/-- Subscription method `on` (lines 154-157): a silent no-op when the
notification channel is unavailable or when the event name is not a key
of `listenedEvents`; otherwise registers a durable handler. -/
def Client.on (c : Client) (event : String) (cb : Nat) : Client :=
  if c.webSocketUnavailable then c
  else if listenedEvents.contains event then
    { c with emitter := c.emitter.on event cb }
  else c

/-- Subscription method `once` (lines 165-168), same gating as `on`. -/
def Client.once (c : Client) (event : String) (cb : Nat) : Client :=
  if c.webSocketUnavailable then c
  else if listenedEvents.contains event then
    { c with emitter := c.emitter.once event cb }
  else c

/-- Subscription method `removeListener` (lines 176-179), same gating. -/
def Client.removeListener (c : Client) (event : String) (cb : Nat) :
    Client :=
  if c.webSocketUnavailable then c
  else if listenedEvents.contains event then
    { c with emitter := c.emitter.removeListener event cb }
  else c

/-- Truthiness of `this.token.toLowerCase().match(/^[a-f0-9]+$/)`
(line 36): the lowercased token is nonempty and consists of lowercase
hex characters only. -/
def hexTokenOk (token : String) : Bool :=
  let t := lowerChars token
  !t.isEmpty && t.all fun c =>
    (('a' ≤ c && c ≤ 'f') || ('0' ≤ c && c ≤ '9'))

/-- Outcomes of the asynchronous notification-channel negotiation that
the constructor starts (lines 44-113): the settled result of the
`getWebSocketState` promise (`Except.error` = rejected, `Except.ok r` =
fulfilled with `data.result = r`) and of the `setWebSocketState` promise
when it is issued. -/
structure WsEnv where
  getStateResult : Except Unit Int
  setStateResult : Except Unit Unit

/-- Requests the constructor itself issues (lines 44-113): nothing when
the notification feature is off; otherwise `getWebSocketState`, followed
by `setWebSocketState` except when the query fulfilled with a nonzero
port (lines 45-49 adopt that port directly). -/
def negotiationRequests (websocketenabled : Bool) (env : WsEnv) :
    List String :=
  if websocketenabled then
    match env.getStateResult with
    | Except.ok r =>
      if r != 0 then ["getWebSocketState"]
      else ["getWebSocketState", "setWebSocketState"]
    | Except.error _ => ["getWebSocketState", "setWebSocketState"]
  else []

/-- Final notification-channel fields after the negotiation of lines
44-113 settles: `(wsPort, webSocketUnavailable)`.  A fulfilled query
with nonzero result adopts the reported port (lines 46-49); a zero
result or a rejected query falls back to `wsPort || "20001"` and a
`setWebSocketState` attempt whose rejection leaves the channel
permanently unavailable (lines 64-87 and 88-112). -/
def negotiatedWs (websocketenabled : Bool) (wsPort : Option String)
    (env : WsEnv) : Option String × Bool :=
  if websocketenabled then
    match env.getStateResult with
    | Except.ok r =>
      if r != 0 then (some (toString r), false)
      else
        match env.setStateResult with
        | Except.ok _ => (some (jsOrStr wsPort "20001"), false)
        | Except.error _ => (some (jsOrStr wsPort "20001"), true)
    | Except.error _ =>
      match env.setStateResult with
      | Except.ok _ => (some (jsOrStr wsPort "20001"), false)
      | Except.error _ => (some (jsOrStr wsPort "20001"), true)
  else (none, true)

/-- The constructor of the `Utopia` class (lines 19-114), returning the
constructed client and the list of API methods whose requests the
constructor itself initiates.  Token validation (lines 32-39) throws
before anything else: `token || "no_token"` then the hex pattern test.
After validation the fields are set (lines 39-43) and, when the
notification feature is requested, the negotiation of lines 44-113 runs:
a nonzero reported port is adopted and the socket opened; a zero port or
a failed query leads to a `setWebSocketState` attempt whose failure
leaves `webSocketUnavailable` permanently true.  Every negotiation
failure is only warned about, never rethrown, so construction succeeds
for every valid token.  (Line 90 assigns the number `20001` rather than
the string; both render identically in the socket URL, so the model
uses the string.) -/
def utopiaConstructor (token : Option String) (websocketenabled : Bool)
    (apiHost apiPort wsPort : Option String) (env : WsEnv) :
    Except JsError Client × List String :=
  let tok := jsOrStr token "no_token"
  if tok == "no_token" then
    (Except.error (JsError.errorMsg "token is not valid"), [])
  else if !hexTokenOk tok then
    (Except.error (JsError.errorMsg "token is not valid"), [])
  else
    let negotiated := negotiatedWs websocketenabled wsPort env
    (Except.ok
      { token := tok.toUpper
        websocketenabled := websocketenabled
        apiHost := jsOrStr apiHost "127.0.0.1"
        apiPort := jsOrStr apiPort "20000"
        wsPort := negotiated.1
        webSocketUnavailable := negotiated.2
        emitter := ⟨[]⟩ },
     negotiationRequests websocketenabled env)

/-- A client whose notification channel is up, as after a successful
negotiation, with no subscribers yet: a concrete test fixture. -/
def liveClient : Client :=
  { token := "ABC123"
    websocketenabled := true
    apiHost := "127.0.0.1"
    apiPort := "20000"
    wsPort := some "20001"
    webSocketUnavailable := false
    emitter := ⟨[]⟩ }

/-- A client in degraded mode (`webSocketUnavailable` still true), as
after a failed negotiation or when the feature was never requested. -/
def degradedClient : Client :=
  { liveClient with webSocketUnavailable := true }

/-- The three-frame inbound sequence of the specification's test
scenario: two well-formed frames and one that fails to parse. -/
def testFrames : List WireFrame :=
  [WireFrame.json "newInstantMessage" [], WireFrame.json "incomingBuzz" [],
   WireFrame.garbage "garbage-not-json"]

/-- The live client with callback 0 subscribed on `"any"` and callback 1
subscribed on `"newInstantMessage"` through the subscription API. -/
def subscribedClient : Client :=
  (liveClient.on "any" 0).on "newInstantMessage" 1

/-- C1: refuted on the code (code bug).  `setContactNick("ABC", "Bob")`
does produce the documented method name and the documented params
`contactPublicKey` / `newNick`, but the universal part of the claim
fails: `unsModifyRecordRequest` hands the transport the method name
`"unsCreateRecordRequest"`, not its documented remote method name
`"unsModifyRecordRequest"` (and `modifyChannel` likewise names
`"createChannel"`). -/
theorem C1_method_and_params :
    (setContactNick "ABC123" (some "ABC") (some "Bob")).method
        = "setContactNick"
      ∧ (setContactNick "ABC123" (some "ABC") (some "Bob")).params
        = [("contactPublicKey", Json.str "ABC"), ("newNick", Json.str "Bob")]
      ∧ (unsModifyRecordRequest "ABC123" (some "nick1") (some "2026-04-01")
          (some "1") (some "chan1")).method = "unsCreateRecordRequest" :=
  ⟨rfl, rfl, rfl⟩

/-- C2 counterexample: a frame whose text fails to parse is not dropped;
`JSON.parse` throws a SyntaxError that escapes the message handler (no
try/catch surrounds it), so the handler run ends in an uncaught error
instead of returning normally with the frame ignored. -/
theorem C2_counterexample :
    handleMessage (⟨[]⟩ : Emitter) (WireFrame.garbage "garbage-not-json")
      = Except.error JsError.syntaxError :=
  rfl

/-- C2 amended: a malformed frame makes the handler throw an uncaught
SyntaxError rather than being silently dropped; for the three-frame
sequence newInstantMessage, incomingBuzz, garbage-not-json (malformed
frame last) the subscriber on `any` is still invoked exactly 2 times and
the subscriber on `newInstantMessage` exactly 1 time, and processing
ends with the propagated parse error. -/
theorem C2_amended_counts :
    (((processFrames subscribedClient.emitter testFrames).1.map
        Prod.fst).count 0 = 2)
      ∧ (((processFrames subscribedClient.emitter testFrames).1.map
          Prod.fst).count 1 = 1)
      ∧ (processFrames subscribedClient.emitter testFrames).2.2
        = some JsError.syntaxError := by
  refine ⟨?_, ?_, ?_⟩ <;> rfl

/-- C9: a well-parsed frame whose type is exactly `"message"` notifies
subscribers of the `message` category twice: once by the exact-type emit
and once more by the substring-match emit, whatever the payload and
whichever callback is subscribed. -/
theorem C9_message_double_dispatch (cb : Nat)
    (payload : List (String × Json)) :
    (invocationsOf (handleMessage ⟨[⟨"message", cb, false⟩]⟩
        (WireFrame.json "message" payload))).map Prod.fst = [cb, cb] := by
  have hd : dispatchEvents "message" = ["message", "any", "message"] := by
    decide
  simp [handleMessage, hd, runEmits, Emitter.emitOne, invocationsOf]

/-- C10: every call to `modifyChannel` throws a ReferenceError on the
statement `password = password || ""` -- `password` is not among the
method's parameters and resolves to no declaration -- so the operation
never reaches `sendRequest`, whatever the arguments. -/
theorem C10_modifyChannel_throws (token : String)
    (channelId description readOnly language hashtags geoTag
      base64AvatarImage hideInUI : Option String) :
    modifyChannel token channelId description readOnly language hashtags
        geoTag base64AvatarImage hideInUI
      = Except.error (JsError.referenceError "password") :=
  rfl

/-- C3 counterexample: the claimed notification order (catch-all first,
exact match second) is not the code's order.  For a frame of type
`"newEmail"` the handler emits the exact type before `"any"`:
`["newEmail", "any"]`, not the claimed `["any", "newEmail"]`. -/
theorem C3_counterexample :
    (dispatchEvents "newEmail" == dispatchEventsSpecOrder "newEmail") = false
      ∧ dispatchEvents "newEmail" = ["newEmail", "any"]
      ∧ dispatchEventsSpecOrder "newEmail" = ["any", "newEmail"] := by
  refine ⟨by decide, by decide, by decide⟩

/-- C3 amended: the set of notified categories is exactly as claimed
(the dispatch list is a permutation of the spec-ordered list, which
encodes the catch-all, the exact match, and the three synthetic
categories under their case-insensitive containment conditions), but
the order differs: the exact-type category is notified first and the
catch-all second, followed by the synthetic categories. -/
theorem C3_amended_order (typ : String) :
    (dispatchEvents typ).Perm (dispatchEventsSpecOrder typ)
      ∧ (dispatchEvents typ).take 2 = [typ, "any"] := by
  constructor
  · simp only [dispatchEvents, dispatchEventsSpecOrder, List.cons_append,
      List.nil_append, List.append_assoc]
    exact List.Perm.swap "any" typ _
  · rfl

/-- C4 counterexample: a callback subscribed through `on` on the
synthetic category `incomingMessage` is invoked 0 times, not 1, when a
well-formed frame of type `"incomingBuzz"` arrives: `listenedEvents` has
no `incomingMessage` key, so `on` never registers the callback. -/
theorem C4_counterexample :
    ((((invocationsOf (handleMessage
          ((liveClient.on "incomingMessage" 0).emitter)
          (WireFrame.json "incomingBuzz" []))).map Prod.fst).count 0 == 1)
        = false)
      ∧ (((invocationsOf (handleMessage
          ((liveClient.on "incomingMessage" 0).emitter)
          (WireFrame.json "incomingBuzz" []))).map Prod.fst).count 0 = 0) := by
  refine ⟨by decide, by decide⟩

/-- C4 amended: the pattern-derived synthetic categories
`incomingMessage` and `outgoingMessage` are not subscribable: `on` and
`once` gate on the keys of `listenedEvents`, which contain neither name,
so such a subscription leaves the client unchanged (of the synthetic
categories only `message`, which is also a fixed category, can be
subscribed). -/
theorem C4_amended_not_subscribable (c : Client) (cb : Nat) :
    c.on "incomingMessage" cb = c ∧ c.on "outgoingMessage" cb = c
      ∧ c.once "incomingMessage" cb = c ∧ c.once "outgoingMessage" cb = c := by
  have h1 : listenedEvents.contains "incomingMessage" = false := by decide
  have h2 : listenedEvents.contains "outgoingMessage" = false := by decide
  refine ⟨?_, ?_, ?_, ?_⟩ <;>
    · simp only [Client.on, Client.once, h1, h2]
      split <;> rfl

/-- Every invocation produced by the handler's emit sequence carries an
empty argument list, because each `this.listener.emit(e)` call passes
nothing after the event name. -/
theorem runEmits_args_nil (evs : List String) :
    ∀ (em : Emitter) (x : Nat × List Json),
      x ∈ (runEmits em evs).1 → x.2 = [] := by
  induction evs with
  | nil =>
    intro em x hx
    simp [runEmits] at hx
  | cons ev rest ih =>
    intro em x hx
    simp only [runEmits, List.mem_append] at hx
    rcases hx with hx | hx
    · simp only [Emitter.emitOne, List.mem_map] at hx
      rcases hx with ⟨h, _, rfl⟩
      rfl
    · exact ih _ _ hx

/-- C5 counterexample: for the well-parsed frame of type `"newEmail"`
with payload field `subject`, the subscriber on `newEmail` is notified
but its callback receives an empty argument list -- the payload is not
passed through (no invocation carries the payload value). -/
theorem C5_counterexample :
    invocationsOf (handleMessage (Emitter.on ⟨[]⟩ "newEmail" 0)
        (WireFrame.json "newEmail" [("subject", Json.str "hello")]))
      = [(0, [])]
    ∧ ((invocationsOf (handleMessage (Emitter.on ⟨[]⟩ "newEmail" 0)
        (WireFrame.json "newEmail" [("subject", Json.str "hello")]))).all
      fun x => x.2.contains (Json.str "hello")) = false := by
  refine ⟨by decide, by decide⟩

/-- C5 amended: the decoded event's payload is discarded, not passed
through: every emit of the message handler supplies no arguments, so
each notified subscriber callback is invoked with an empty argument
list, whatever the frame's payload fields were. -/
theorem C5_amended_no_payload (em : Emitter) (typ : String)
    (payload : List (String × Json)) (x : Nat × List Json)
    (hx : x ∈ invocationsOf (handleMessage em (WireFrame.json typ payload))) :
    x.2 = [] := by
  simp only [handleMessage, invocationsOf] at hx
  exact runEmits_args_nil _ _ _ hx

/-- Witness for C5 amended at a concrete frame and subscriber. -/
theorem C5_amended_no_payload_witness :
    ((7, ([] : List Json)) ∈ invocationsOf (handleMessage
        (Emitter.on ⟨[]⟩ "newEmail" 7)
        (WireFrame.json "newEmail" [("subject", Json.str "hello")])))
      ∧ (7, ([] : List Json)).2 = [] := by
  have hm : (7, ([] : List Json)) ∈ invocationsOf (handleMessage
      (Emitter.on ⟨[]⟩ "newEmail" 7)
      (WireFrame.json "newEmail" [("subject", Json.str "hello")])) := by
    decide
  exact ⟨hm, C5_amended_no_payload _ _ _ _ hm⟩

/-- C6: construction succeeds exactly for tokens passing the
case-insensitive hex pattern of line 36 (an empty or missing token falls
to `"no_token"` and is rejected as well), it throws synchronously
otherwise with no client produced, and when the token is rejected the
constructor issues no request; notification-negotiation outcomes never
affect whether construction succeeds. -/
theorem C6_token_validation (token : Option String) (ws : Bool)
    (apiHost apiPort wsPort : Option String) (env : WsEnv) :
    ((utopiaConstructor token ws apiHost apiPort wsPort env).1.isOk
        = hexTokenOk (jsOrStr token ""))
      ∧ (hexTokenOk (jsOrStr token "") = false →
          (utopiaConstructor token ws apiHost apiPort wsPort env).2 = []) := by
  cases token with
  | none => exact ⟨rfl, fun _ => rfl⟩
  | some s =>
    by_cases hs : s = ""
    · subst hs
      exact ⟨rfl, fun _ => rfl⟩
    · have hbe : (s == "") = false := beq_eq_false_iff_ne.mpr hs
      by_cases hnt : s = "no_token"
      · subst hnt
        exact ⟨rfl, fun _ => rfl⟩
      · have h1 : (s == "no_token") = false := beq_eq_false_iff_ne.mpr hnt
        by_cases hh : hexTokenOk s = true
        · constructor
          · simp [utopiaConstructor, jsOrStr, hbe, h1, hh, Except.isOk, Except.toBool]
          · intro hcon
            simp [jsOrStr, hbe, hh] at hcon
        · have hh' : hexTokenOk s = false := by
            simpa using hh
          constructor
          · simp [utopiaConstructor, jsOrStr, hbe, h1, hh', Except.isOk, Except.toBool]
          · intro _
            simp [utopiaConstructor, jsOrStr, hbe, h1, hh']

/-- Witness for C6 at a concrete rejected token. -/
theorem C6_token_validation_witness :
    hexTokenOk (jsOrStr (some "xyz") "") = false
      ∧ (utopiaConstructor (some "xyz") true none none none
          ⟨Except.ok 0, Except.ok ()⟩).2 = [] :=
  ⟨by decide,
   (C6_token_validation (some "xyz") true none none none
      ⟨Except.ok 0, Except.ok ()⟩).2 (by decide)⟩

/-- C7: the promise returned by `sendRequest` resolves with the response
body exactly when the transport reports no error and status 200; in
every other case it rejects, with the underlying transport error when
one exists and with the generic non-200-status marker otherwise. -/
theorem C7_sendRequest_outcome (e? : Option String) (status : Nat)
    (body : Json) :
    (sendRequestOutcome e? status body = Except.ok body
        ↔ e? = none ∧ status = 200)
      ∧ (∀ e, e? = some e →
          sendRequestOutcome e? status body = Except.error e)
      ∧ (e? = none → status ≠ 200 →
          sendRequestOutcome e? status body
            = Except.error "statusCode is not 200") := by
  cases e? with
  | none =>
    by_cases h2 : status = 200 <;> simp [sendRequestOutcome, h2]
  | some e =>
    by_cases h2 : status = 200 <;> simp [sendRequestOutcome, h2]

/-- Witness for C7 on a transport error and on a bare non-200 status. -/
theorem C7_sendRequest_outcome_witness :
    (sendRequestOutcome (some "boom") 500 (Json.num 1)
        = Except.error "boom")
      ∧ (sendRequestOutcome none 500 (Json.num 1)
        = Except.error "statusCode is not 200") :=
  ⟨(C7_sendRequest_outcome (some "boom") 500 (Json.num 1)).2.1 "boom" rfl,
   (C7_sendRequest_outcome none 500 (Json.num 1)).2.2 rfl (by decide)⟩

/-- C8: whenever the notification channel is unavailable, `on`, `once`
and `removeListener` all return without effect: the client, its
subscriber registry included, is unchanged (and the operations are
total, so nothing is thrown). -/
theorem C8_noop_when_unavailable (c : Client) (event : String) (cb : Nat)
    (h : c.webSocketUnavailable = true) :
    c.on event cb = c ∧ c.once event cb = c
      ∧ c.removeListener event cb = c := by
  refine ⟨?_, ?_, ?_⟩ <;>
    simp [Client.on, Client.once, Client.removeListener, h]

/-- Witness for C8 on a concrete degraded client. -/
theorem C8_noop_when_unavailable_witness :
    degradedClient.webSocketUnavailable = true
      ∧ Client.on degradedClient "any" 0 = degradedClient
      ∧ Client.once degradedClient "any" 0 = degradedClient
      ∧ Client.removeListener degradedClient "any" 0 = degradedClient := by
  have h := C8_noop_when_unavailable degradedClient "any" 0 rfl
  exact ⟨rfl, h.1, h.2.1, h.2.2⟩
